import Mathlib

/-!
Shallow embedding of the core of the `whatsapp-sentiment-analyzer` repository:

* `backend/services/sentiment.py` — the multi-model sentiment analyzer
  (`SentimentAnalyzer.analyze`, `_analyze_vader`, `_analyze_textblob`,
  `_ensemble_scores`);
* `backend/services/explainable_ai_service.py` — the explainability service
  (`_calculate_confidence`, `_score_to_label`, `find_disagreements`,
  `_explain_disagreement`);
* `backend/services/nlp_service.py` — the chat parser (`ChatParser.parse`)
  and the analysis loop of `NLPService.analyze_chat`.

Python floats are modelled as exact rationals (`ℚ`); text is modelled as
`List Char`.  Library calls that can raise (the VADER `polarity_scores`
call, the TextBlob `sentiment.polarity` call) are modelled as `Except Unit ℚ`
parameters, so that the exception-handling structure of the source is
explicit.
-/

namespace WSA

/-- The three-way sentiment label used throughout the repository
(a free string `'Positive' | 'Negative' | 'Neutral'` in the source). -/
inductive Label where
  | Positive
  | Negative
  | Neutral
deriving DecidableEq, Repr

/-- A single scorer's result: the dict `{'score': float, 'label': str}`
returned by `_analyze_vader` / `_analyze_textblob` (sentiment.py). -/
structure SentResult where
  score : ℚ
  label : Label
deriving DecidableEq, Repr

/-- The ensemble dict `{'score', 'label', 'confidence'}` returned by
`_ensemble_scores` (sentiment.py lines 229-233). -/
structure EnsembleResult where
  score : ℚ
  label : Label
  confidence : ℚ
deriving DecidableEq, Repr

/-- `_to_score` (sentiment.py lines 180-193): a falsy value (`None`, empty
dict) contributes `0.0`; a dict with a `'score'` key contributes that score.
(The transformer-pipeline list branch at lines 187-192 is unreachable from
`analyze`, which only ever passes the two scorer dicts.) -/
def toScore : Option SentResult → ℚ
  | none => 0
  | some r => r.score

/-- The label thresholds applied to the ensemble score
(sentiment.py lines 215-220). -/
def ensLabel (ensemble_score : ℚ) : Label :=
  if ensemble_score ≥ 0.05 then Label.Positive
  else if ensemble_score ≤ -0.05 then Label.Negative
  else Label.Neutral

/-- `_ensemble_scores` (sentiment.py lines 177-233): weighted sum
`vader*0.6 + textblob*0.4` (line 213), labels per `ensLabel`, confidence
`abs(ensemble_score) * max(0.0, min(1.0, agreement))` with
`agreement = 1.0 - abs(vader - textblob)/2` (lines 224-225), and the
returned confidence is `min(confidence, 1.0)` (line 232).  The dead
`scores` list at line 203 and the no-op transformer block are omitted;
the `except` arm at line 226 is unreachable for rational inputs. -/
def ensembleScores (vader textblob : Option SentResult) : EnsembleResult :=
  let vader_norm := toScore vader
  let textblob_norm := toScore textblob
  let ensemble_score := vader_norm * 0.6 + textblob_norm * 0.4
  let agreement := 1 - |vader_norm - textblob_norm| / 2
  let confidence := |ensemble_score| * max 0 (min 1 agreement)
  { score := ensemble_score
    label := ensLabel ensemble_score
    confidence := min confidence 1 }

/-- The VADER label thresholds (sentiment.py lines 111-116). -/
def vaderLabel (compound : ℚ) : Label :=
  if compound ≥ 0.05 then Label.Positive
  else if compound ≤ -0.05 then Label.Negative
  else Label.Neutral

/-- `_analyze_vader` (sentiment.py lines 106-118).  The underlying
`self.vader.polarity_scores(text)` call is the `Except` parameter; note the
source has **no** try/except here, so an error propagates to the caller. -/
def analyzeVader (compound : Except Unit ℚ) : Except Unit SentResult :=
  match compound with
  | Except.error e => Except.error e
  | Except.ok c => Except.ok { score := c, label := vaderLabel c }

/-- The TextBlob label thresholds (sentiment.py lines 165-170). -/
def textblobLabel (polarity : ℚ) : Label :=
  if polarity > 0.1 then Label.Positive
  else if polarity < -0.1 then Label.Negative
  else Label.Neutral

/-- `_analyze_textblob` (sentiment.py lines 159-175).  The body is wrapped
in try/except: an internal error yields `{'score': 0.0, 'label': 'Neutral'}`. -/
def analyzeTextblob (polarity : Except Unit ℚ) : SentResult :=
  match polarity with
  | Except.ok p => { score := p, label := textblobLabel p }
  | Except.error _ => { score := 0, label := Label.Neutral }

/-- The aggregate dict returned by `SentimentAnalyzer.analyze`
(sentiment.py lines 83-93).  The `transformer_en` / `transformer_multi`
fields are omitted: transformers are never auto-loaded (lines 28-30), every
loading/analysis failure is swallowed (lines 69-78), and no claim concerns
them. -/
structure AnalyzeResult where
  vader_score : ℚ
  vader_label : Label
  textblob_score : ℚ
  textblob_label : Label
  ensemble_score : ℚ
  ensemble_label : Label
  confidence : ℚ
deriving DecidableEq, Repr

/-- The all-zero/Neutral result dict (sentiment.py lines 50-58 and 96-103). -/
def zeroAnalyze : AnalyzeResult :=
  { vader_score := 0, vader_label := Label.Neutral
    textblob_score := 0, textblob_label := Label.Neutral
    ensemble_score := 0, ensemble_label := Label.Neutral
    confidence := 0 }

/-- Python whitespace characters (ASCII fragment) as used by `str.strip()`
and the regex class `\s`. -/
def isPyWs (c : Char) : Bool :=
  c = ' ' ∨ c = '\t' ∨ c = '\n' ∨ c = '\r' ∨ c = '\x0b' ∨ c = '\x0c'

/-- Python `str.strip()`: drop leading and trailing whitespace. -/
def stripPy (s : List Char) : List Char :=
  ((s.dropWhile isPyWs).reverse.dropWhile isPyWs).reverse

/-- `SentimentAnalyzer.analyze` (sentiment.py lines 33-104).  Empty or
whitespace-only text short-circuits to the zero result (lines 49-58).
Otherwise VADER runs first (line 61); since `_analyze_vader` has no local
handler, a VADER-level error escapes to the outer `except` (lines 94-104),
which returns the zero result for the whole message.  TextBlob runs second
(line 64) and fails soft internally.  The ensemble combines the two
(line 81). -/
def analyze (text : List Char) (vaderCompound textblobPolarity : Except Unit ℚ) :
    AnalyzeResult :=
  if stripPy text = [] then zeroAnalyze
  else
    match analyzeVader vaderCompound with
    | Except.error _ => zeroAnalyze
    | Except.ok vader_result =>
      let textblob_result := analyzeTextblob textblobPolarity
      let ensemble := ensembleScores (some vader_result) (some textblob_result)
      { vader_score := vader_result.score
        vader_label := vader_result.label
        textblob_score := textblob_result.score
        textblob_label := textblob_result.label
        ensemble_score := ensemble.score
        ensemble_label := ensemble.label
        confidence := ensemble.confidence }

/-- `clamp(x, lo, hi)` as used by the spec's formulas. -/
def clamp (x lo hi : ℚ) : ℚ := max lo (min x hi)

/-!
### Explainable AI service (`backend/services/explainable_ai_service.py`)
-/

/-- Python's `round` on a value exactly between two integers rounds to the
even one (banker's rounding); on non-ties it rounds to the nearest integer. -/
def roundHE (x : ℚ) : ℤ :=
  if x - ⌊x⌋ < 1/2 then ⌊x⌋
  else if 1/2 < x - ⌊x⌋ then ⌊x⌋ + 1
  else if 2 ∣ ⌊x⌋ then ⌊x⌋ else ⌊x⌋ + 1

/-- Python's `round(x, 2)`: round to two decimal places. -/
def roundTo2 (x : ℚ) : ℚ := (roundHE (x * 100) : ℚ) / 100

/-- `ExplainableAIService._calculate_confidence`
(explainable_ai_service.py lines 61-72):
`round(min(abs(score) * 1.2, 1.0), 2)`. -/
def calculateConfidence (score : ℚ) : ℚ :=
  roundTo2 (min (|score| * 1.2) 1)

/-- `ExplainableAIService._score_to_label`
(explainable_ai_service.py lines 74-81): thresholds `> 0.1` / `< -0.1`. -/
def scoreToLabel (score : ℚ) : Label :=
  if score > 0.1 then Label.Positive
  else if score < -0.1 then Label.Negative
  else Label.Neutral

/-- The "mixed or complex sentiment" disagreement explanation string
(explainable_ai_service.py lines 161-162). -/
def MIXED_REASON : String :=
  "Large difference in scores suggests mixed or complex sentiment. Text may contain sarcasm, irony, or both positive and negative elements."

/-- The "subtle indicators" disagreement explanation string
(explainable_ai_service.py lines 164-165). -/
def SUBTLE_REASON : String :=
  "Models are close but on opposite sides of neutral. Text likely has subtle sentiment indicators that differ in interpretation."

/-- `ExplainableAIService._explain_disagreement`
(explainable_ai_service.py lines 158-165). -/
def explainDisagreement (vader_score textblob_score : ℚ) : String :=
  if |vader_score - textblob_score| > 0.5 then MIXED_REASON else SUBTLE_REASON

/-- The disagreement dict built by `find_disagreements`
(explainable_ai_service.py lines 150-156). -/
structure Disagreement where
  disagreement : Bool
  vader_says : Label
  textblob_says : Label
  possible_reason : String
  recommendation : String
deriving DecidableEq, Repr

/-- `ExplainableAIService.find_disagreements`
(explainable_ai_service.py lines 129-156): `None` when the two
`_score_to_label` labels agree, otherwise the disagreement dict. -/
def findDisagreements (vader_score textblob_score : ℚ) : Option Disagreement :=
  let vader_label := scoreToLabel vader_score
  let textblob_label := scoreToLabel textblob_score
  if vader_label = textblob_label then none
  else some
    { disagreement := true
      vader_says := vader_label
      textblob_says := textblob_label
      possible_reason := explainDisagreement vader_score textblob_score
      recommendation := "Manual review recommended for this message" }

/-!
### Chat parser (`backend/services/nlp_service.py`, `ChatParser`)

`ChatParser.START_RE` is

```
^(?P<date>\d{1,2}[\/\-]\d{1,2}[\/\-]\d{2,4}|\d{4}[\-]\d{1,2}[\-]\d{1,2}),?
 \s*(?P<time>\d{1,2}:\d{2}(?::\d{2})?(?:\s*[APMapm]\x7b2\x7d)?)\s*-\s*
 (?P<sender>[^:]+?):\s*(?P<message>.*)
```

It is modelled by an explicit backtracking matcher: each regex piece maps a
remaining input to the list of `(consumed, rest)` alternatives in Python's
preference order (greedy pieces longest-first, lazy pieces shortest-first,
alternation left-first); the `List` monad chains pieces with full
backtracking and the overall match is the first complete success.
-/

/-- Length of the maximal digit prefix of `s`. -/
def digitPrefixLen (s : List Char) : Nat :=
  (s.takeWhile Char.isDigit).length

/-- Greedy `\d{lo,hi}`: consume between `lo` and `hi` digits, longest
alternative first. -/
def digitsRange (lo hi : Nat) (s : List Char) : List (List Char × List Char) :=
  let k := min (digitPrefixLen s) hi
  (List.range (k + 1)).reverse.filterMap fun n =>
    if lo ≤ n then some (s.take n, s.drop n) else none

/-- Exactly `n` characters satisfying `p`. -/
def classExact (p : Char → Bool) (n : Nat) (s : List Char) :
    List (List Char × List Char) :=
  if (s.take n).length = n ∧ (s.take n).all p then [(s.take n, s.drop n)] else []

/-- A literal character. -/
def litChar (c : Char) (s : List Char) : List (List Char × List Char) :=
  match s with
  | [] => []
  | x :: r => if x = c then [([c], r)] else []

/-- Greedy `c?`. -/
def optChar (c : Char) (s : List Char) : List (List Char × List Char) :=
  litChar c s ++ [([], s)]

/-- Greedy `\s*`: longest whitespace prefix first, down to the empty match. -/
def wsStarAlts (s : List Char) : List (List Char × List Char) :=
  let k := (s.takeWhile isPyWs).length
  (List.range (k + 1)).reverse.map fun n => (s.take n, s.drop n)

/-- The `date` group: `\d{1,2}[\/\-]\d{1,2}[\/\-]\d{2,4}` or
`\d{4}[\-]\d{1,2}[\-]\d{1,2}`, left alternative preferred. -/
def dateAlts (s : List Char) : List (List Char × List Char) :=
  (do
    let (a, r1) ← digitsRange 1 2 s
    let (s1, r2) ← (litChar '/' r1 ++ litChar '-' r1)
    let (b, r3) ← digitsRange 1 2 r2
    let (s2, r4) ← (litChar '/' r3 ++ litChar '-' r3)
    let (c, r5) ← digitsRange 2 4 r4
    pure (a ++ s1 ++ b ++ s2 ++ c, r5))
  ++
  (do
    let (a, r1) ← digitsRange 4 4 s
    let (s1, r2) ← litChar '-' r1
    let (b, r3) ← digitsRange 1 2 r2
    let (s2, r4) ← litChar '-' r3
    let (c, r5) ← digitsRange 1 2 r4
    pure (a ++ s1 ++ b ++ s2 ++ c, r5))

/-- Membership in the character class `[APMapm]`. -/
def isApmChar (c : Char) : Bool :=
  c = 'A' ∨ c = 'P' ∨ c = 'M' ∨ c = 'a' ∨ c = 'p' ∨ c = 'm'

/-- The `time` group:
`\d{1,2}:\d{2}(?::\d{2})?(?:\s*[APMapm]\x7b2\x7d)?`, greedy optionals. -/
def timeAlts (s : List Char) : List (List Char × List Char) := do
  let (h, r1) ← digitsRange 1 2 s
  let (c1, r2) ← litChar ':' r1
  let (m2, r3) ← classExact Char.isDigit 2 r2
  let (sec, r4) ←
    ((do
      let (c2, ra) ← litChar ':' r3
      let (d2, rb) ← classExact Char.isDigit 2 ra
      pure (c2 ++ d2, rb)) ++ [([], r3)])
  let (ampm, r5) ←
    ((do
      let (w, ra) ← wsStarAlts r4
      let (ap, rb) ← classExact isApmChar 2 ra
      pure (w ++ ap, rb)) ++ [([], r4)])
  pure (h ++ c1 ++ m2 ++ sec ++ ampm, r5)

/-- The lazy `sender` group `[^:]+?`: shortest non-empty colon-free prefix
first. -/
def senderAlts (s : List Char) : List (List Char × List Char) :=
  let k := (s.takeWhile (fun c => ¬ c = ':')).length
  (List.range k).map fun i => (s.take (i + 1), s.drop (i + 1))

/-- The four named groups captured by `START_RE`. -/
structure Groups where
  date : List Char
  time : List Char
  sender : List Char
  message : List Char
deriving DecidableEq, Repr

/-- `ChatParser.START_RE.match(line)` (nlp_service.py line 33 / line 51):
`none` when the line is not a message start, otherwise the captured groups.
The trailing `.*` group takes the rest of the line up to a newline (`.`
does not match `\n`). -/
def matchStart (line : List Char) : Option Groups :=
  (do
    let (d, r1) ← dateAlts line
    let (_, r2) ← optChar ',' r1
    let (_, r3) ← wsStarAlts r2
    let (t, r4) ← timeAlts r3
    let (_, r5) ← wsStarAlts r4
    let (_, r6) ← litChar '-' r5
    let (_, r7) ← wsStarAlts r6
    let (snd, r8) ← senderAlts r7
    let (_, r9) ← litChar ':' r8
    let (_, r10) ← wsStarAlts r9
    pure ({ date := d, time := t, sender := snd
            message := r10.takeWhile (fun c => ¬ c = '\n') } : Groups)).head?

/-- Worker for `splitlines`: `cur` holds the current line, reversed. -/
def splitlinesGo : List Char → List Char → List (List Char)
  | cur, [] => if cur.isEmpty then [] else [cur.reverse]
  | cur, '\r' :: '\n' :: rest => cur.reverse :: splitlinesGo [] rest
  | cur, '\r' :: rest => cur.reverse :: splitlinesGo [] rest
  | cur, '\n' :: rest => cur.reverse :: splitlinesGo [] rest
  | cur, c :: rest => splitlinesGo (c :: cur) rest

/-- Python `str.splitlines()` (ASCII line terminators `\n`, `\r\n`, `\r`):
no trailing empty line for a trailing terminator. -/
def splitlines (content : List Char) : List (List Char) :=
  splitlinesGo [] content

/-- Python `str.isprintable()` restricted to ASCII: control characters are
not printable, space and the graphic characters are. -/
def pyPrintable (c : Char) : Bool :=
  ¬ (c.toNat < 0x20 ∨ c.toNat = 0x7f)

/-- ASCII lowercasing, modelling Python `str.lower()` on the inputs the
claims use. -/
def toLowerL (s : List Char) : List Char := s.map Char.toLower

/-- `needle` is a prefix of `hay`. -/
def leadsWith : List Char → List Char → Bool
  | [], _ => true
  | _ :: _, [] => false
  | a :: as, b :: bs => a = b && leadsWith as bs

/-- Python's `needle in hay` substring test. -/
def containsSub (needle : List Char) : List Char → Bool
  | [] => leadsWith needle []
  | c :: rest => leadsWith needle (c :: rest) || containsSub needle rest

/-- The system sender aliases (nlp_service.py line 62). -/
def SYSTEM_ALIASES : List (List Char) :=
  [ ("system".data), ("you".data), ("group notification".data)]

/-- The system-action body keywords (nlp_service.py line 62). -/
def SYSTEM_KEYWORDS : List (List Char) :=
  [ ("secured".data), ("created group".data), ("changed".data),
    ("left group".data), ("added".data)]

/-- A parsed message dict (nlp_service.py lines 80-85). -/
structure PMsg where
  timestamp : List Char
  raw_timestamp : List Char
  sender : List Char
  message : List Char
deriving DecidableEq, Repr

/-- The matched-line branch of `ChatParser.parse`
(nlp_service.py lines 53-85): strip the sender and message groups
(lines 55-56), printable-filter and re-strip the sender (line 59),
reclassify to `System` when the sender is a known alias or the lowercased
body contains a system keyword (lines 62-63), and attach the timestamp.
The `strptime`-based ISO normalization (lines 65-78) is abstracted as the
parameter `normTs` (given the date and time group texts it returns the
`timestamp` value); no claim depends on its output, and every theorem below
quantifies over it. -/
def processMatched (normTs : List Char → List Char → List Char)
    (g : Groups) : PMsg :=
  let sender0 := stripPy g.sender
  let msg_content := stripPy g.message
  let sender1 := stripPy (sender0.filter pyPrintable)
  let sender2 :=
    if SYSTEM_ALIASES.contains (toLowerL sender1)
        || SYSTEM_KEYWORDS.any (fun kw => containsSub kw (toLowerL msg_content))
    then ("System".data) else sender1
  { timestamp := normTs g.date g.time
    raw_timestamp := g.date ++ (", ".data) ++ g.time
    sender := sender2
    message := msg_content }

/-- Append `suffix` to the body of the last message
(`messages[-1]['message'] += ...`, nlp_service.py line 89). -/
def appendLast : List PMsg → List Char → List PMsg
  | [], _ => []
  | [m], suffix => [{ m with message := m.message ++ suffix }]
  | m :: m2 :: rest, suffix => m :: appendLast (m2 :: rest) suffix

/-- One iteration of the `ChatParser.parse` loop
(nlp_service.py lines 47-91): blank lines are skipped; a line matching
`START_RE` appends a new message; a non-matching line is merged into the
previous message's body with a `"\n"` separator when a message exists,
otherwise recorded in `failed_lines`. -/
def parseStep (normTs : List Char → List Char → List Char)
    (st : List PMsg × List (List Char)) (line : List Char) :
    List PMsg × List (List Char) :=
  if stripPy line = [] then st
  else
    match matchStart line with
    | some g => (st.1 ++ [processMatched normTs g], st.2)
    | none =>
      if st.1 = [] then (st.1, st.2 ++ [line])
      else (appendLast st.1 ('\n' :: stripPy line), st.2)

/-- `ChatParser.parse` (nlp_service.py lines 35-93): split into lines and
fold the per-line step, returning `(messages, failed_lines)`. -/
def parse (normTs : List Char → List Char → List Char) (content : List Char) :
    List PMsg × List (List Char) :=
  (splitlines content).foldl (parseStep normTs) ([], [])

/-!
### `NLPService.analyze_chat` message loop (nlp_service.py lines 269-335)
-/

/-- The media-omitted marker checked at nlp_service.py line 276. -/
def mediaOmitted : List Char := ("<Media omitted>".data)

/-- The skip condition of the analysis loop (nlp_service.py line 276):
`text == '<Media omitted>' or not text.strip()`. -/
def skipMsg (m : PMsg) : Bool :=
  m.message = mediaOmitted || stripPy m.message = []

/-- The `analyzed_messages` accumulation of the `analyze_chat` loop
(nlp_service.py lines 269-332) restricted to the parsed-message core:
skipped messages (line 276-277) are dropped, every other message appears,
in order.  The sentiment/emotion/keyword annotations attached to each kept
message (lines 308-329) are functions of the kept message alone and are not
modelled: the claims concern which messages appear and how many. -/
def analyzeChatLoop : List PMsg → List PMsg
  | [] => []
  | m :: rest =>
    if skipMsg m then analyzeChatLoop rest
    else m :: analyzeChatLoop rest

/-- `total_messages = len(analyzed_messages)` (nlp_service.py line 335). -/
def totalMessages (msgs : List PMsg) : Nat :=
  (analyzeChatLoop msgs).length

/-!
## Theorems
-/

/-- C1: for every pair of scorer outputs `scoreA` (VADER) and `scoreB`
(TextBlob), each in `[-1, 1]`, the ensemble score produced by
`_ensemble_scores` equals `scoreA*0.6 + scoreB*0.4` exactly (rational
arithmetic models the floats, so exact equality subsumes the 1e-9
tolerance). -/
theorem ensemble_score_weighted (a b : ℚ) (la lb : Label)
    (ha1 : -1 ≤ a) (ha2 : a ≤ 1) (hb1 : -1 ≤ b) (hb2 : b ≤ 1) :
    (ensembleScores (some ⟨a, la⟩) (some ⟨b, lb⟩)).score = a * 0.6 + b * 0.4 ∧
    |(ensembleScores (some ⟨a, la⟩) (some ⟨b, lb⟩)).score - (a * 0.6 + b * 0.4)|
      ≤ 1 / 1000000000 := by
  refine ⟨rfl, ?_⟩
  rw [show (ensembleScores (some ⟨a, la⟩) (some ⟨b, lb⟩)).score = a * 0.6 + b * 0.4
        from rfl]
  rw [sub_self, abs_zero]
  norm_num

/-- Witness for `ensemble_score_weighted` at `scoreA = 1/2`, `scoreB = -1/4`. -/
theorem ensemble_score_weighted_witness :
    (ensembleScores (some ⟨1/2, Label.Positive⟩) (some ⟨-(1/4), Label.Negative⟩)).score
      = (1/2 : ℚ) * 0.6 + (-(1/4)) * 0.4 :=
  (ensemble_score_weighted (1/2) (-(1/4)) Label.Positive Label.Negative
    (by norm_num) (by norm_num) (by norm_num) (by norm_num)).1

/-- C2: the ensemble label is `Positive` when the ensemble score is
`≥ 0.05`, `Negative` when `≤ -0.05`, and `Neutral` otherwise; in
particular `0.05 → Positive`, `-0.05 → Negative`, `0.04999 → Neutral`. -/
theorem ensemble_label_thresholds :
    (∀ v t : Option SentResult,
        (ensembleScores v t).label = ensLabel (ensembleScores v t).score) ∧
    (∀ s : ℚ,
        (0.05 ≤ s → ensLabel s = Label.Positive) ∧
        (s ≤ -0.05 → ensLabel s = Label.Negative) ∧
        (-0.05 < s → s < 0.05 → ensLabel s = Label.Neutral)) ∧
    ensLabel 0.05 = Label.Positive ∧
    ensLabel (-0.05) = Label.Negative ∧
    ensLabel 0.04999 = Label.Neutral := by
  refine ⟨fun v t => rfl, fun s => ⟨?_, ?_, ?_⟩, ?_, ?_, ?_⟩
  · intro h
    unfold ensLabel
    split_ifs <;> first | rfl | linarith
  · intro h
    unfold ensLabel
    split_ifs <;> first | rfl | linarith
  · intro h1 h2
    unfold ensLabel
    split_ifs <;> first | rfl | linarith
  · unfold ensLabel; norm_num
  · unfold ensLabel; norm_num
  · unfold ensLabel; norm_num

/-- Witness for `ensemble_label_thresholds` at concrete scores. -/
theorem ensemble_label_thresholds_witness :
    ensLabel (3/5) = Label.Positive ∧ ensLabel (-(3/5)) = Label.Negative ∧
    ensLabel (1/50) = Label.Neutral :=
  ⟨(ensemble_label_thresholds.2.1 (3/5)).1 (by norm_num),
   (ensemble_label_thresholds.2.1 (-(3/5))).2.1 (by norm_num),
   (ensemble_label_thresholds.2.1 (1/50)).2.2 (by norm_num) (by norm_num)⟩

/-- C3: for scorer scores in `[-1, 1]`, the ensemble confidence equals
`clamp(|ensemble_score| * agreement, 0, 1)` with
`agreement = clamp(1 - |scoreA - scoreB|/2, 0, 1)`, and it always lies in
`[0, 1]`. -/
theorem ensemble_confidence_clamped (a b : ℚ) (la lb : Label)
    (ha1 : -1 ≤ a) (ha2 : a ≤ 1) (hb1 : -1 ≤ b) (hb2 : b ≤ 1) :
    (ensembleScores (some ⟨a, la⟩) (some ⟨b, lb⟩)).confidence
      = clamp (|(ensembleScores (some ⟨a, la⟩) (some ⟨b, lb⟩)).score|
          * clamp (1 - |a - b| / 2) 0 1) 0 1 ∧
    0 ≤ (ensembleScores (some ⟨a, la⟩) (some ⟨b, lb⟩)).confidence ∧
    (ensembleScores (some ⟨a, la⟩) (some ⟨b, lb⟩)).confidence ≤ 1 := by
  have hnn : (0:ℚ) ≤ |a * 0.6 + b * 0.4| * max 0 (min 1 (1 - |a - b| / 2)) :=
    mul_nonneg (abs_nonneg _) (le_max_left _ _)
  refine ⟨?_, ?_, ?_⟩
  · show min (|a * 0.6 + b * 0.4| * max 0 (min 1 (1 - |a - b| / 2))) 1
        = clamp (|a * 0.6 + b * 0.4| * clamp (1 - |a - b| / 2) 0 1) 0 1
    unfold clamp
    rw [min_comm (1 - |a - b| / 2) 1, max_eq_right (le_min hnn zero_le_one)]
  · show (0:ℚ) ≤ min (|a * 0.6 + b * 0.4| * max 0 (min 1 (1 - |a - b| / 2))) 1
    exact le_min hnn zero_le_one
  · show min (|a * 0.6 + b * 0.4| * max 0 (min 1 (1 - |a - b| / 2))) 1 ≤ 1
    exact min_le_right _ _

/-- Witness for `ensemble_confidence_clamped` at `scoreA = 1/2`,
`scoreB = -1/5`. -/
theorem ensemble_confidence_clamped_witness :
    0 ≤ (ensembleScores (some ⟨1/2, Label.Positive⟩)
          (some ⟨-(1/5), Label.Negative⟩)).confidence ∧
    (ensembleScores (some ⟨1/2, Label.Positive⟩)
          (some ⟨-(1/5), Label.Negative⟩)).confidence ≤ 1 := by
  have h := ensemble_confidence_clamped (1/2) (-(1/5)) Label.Positive Label.Negative
    (by norm_num) (by norm_num) (by norm_num) (by norm_num)
  exact ⟨h.2.1, h.2.2⟩

/-- C6: empty or whitespace-only text short-circuits `analyze` to the
all-zero/Neutral result; the result does not depend on either scorer's
behavior (the scorers are not invoked). -/
theorem empty_text_zero_result (text : List Char)
    (vc tp : Except Unit ℚ) (h : stripPy text = []) :
    analyze text vc tp = zeroAnalyze := by
  unfold analyze
  rw [if_pos h]

/-- Witness for `empty_text_zero_result` at `""` and at whitespace-only
text, with differing scorer behaviors. -/
theorem empty_text_zero_result_witness :
    analyze [] (Except.ok 1) (Except.ok (1/2)) = zeroAnalyze ∧
    analyze (" \t ".data) (Except.error ()) (Except.ok (1/2)) = zeroAnalyze :=
  ⟨empty_text_zero_result _ _ _ (by decide),
   empty_text_zero_result _ _ _ (by decide)⟩

/-- C4 counterexample: when the VADER scorer raises (and TextBlob would
return score `1/2`), `analyze` returns the all-zero result: the TextBlob
field of the output is zeroed as well, contradicting the claim that an
internal scorer exception soft-degrades "for that scorer only ... without
zeroing the other scorer's result". -/
theorem vader_error_zeroes_textblob :
    analyze ("good".data) (Except.error ()) (Except.ok (1/2)) = zeroAnalyze ∧
    analyzeTextblob (Except.ok (1/2)) = { score := 1/2, label := Label.Positive } ∧
    (analyze ("good".data) (Except.error ()) (Except.ok (1/2))).textblob_score
      ≠ (analyzeTextblob (Except.ok (1/2))).score := by
  refine ⟨?_, ?_, ?_⟩
  · unfold analyze
    rw [if_neg (by decide)]
    rfl
  · unfold analyzeTextblob textblobLabel
    norm_num
  · show (0:ℚ) ≠ 1/2
    norm_num

/-- C4 (amended): a TextBlob internal exception soft-degrades to
`{score: 0.0, label: Neutral}` for that scorer only, leaving the VADER
result intact; a VADER internal exception is not handled inside
`_analyze_vader` but caught by the message-level handler in `analyze`,
which returns the all-zero/Neutral result for the whole message (zeroing
both scorers' fields) without propagating the exception or aborting the
run. -/
theorem scorer_error_soft_degrade (text : List Char) (v : ℚ)
    (tp : Except Unit ℚ) (h : stripPy text ≠ []) :
    ((analyze text (Except.ok v) (Except.error ())).vader_score = v ∧
     (analyze text (Except.ok v) (Except.error ())).vader_label = vaderLabel v ∧
     (analyze text (Except.ok v) (Except.error ())).textblob_score = 0 ∧
     (analyze text (Except.ok v) (Except.error ())).textblob_label = Label.Neutral) ∧
    analyze text (Except.error ()) tp = zeroAnalyze := by
  unfold analyze
  rw [if_neg h, if_neg h]
  exact ⟨⟨rfl, rfl, rfl, rfl⟩, rfl⟩

/-- Witness for `scorer_error_soft_degrade` on the text `"good"`. -/
theorem scorer_error_soft_degrade_witness :
    ((analyze ("good".data) (Except.ok (7/10)) (Except.error ())).vader_score = 7/10 ∧
     (analyze ("good".data) (Except.ok (7/10)) (Except.error ())).vader_label
        = vaderLabel (7/10) ∧
     (analyze ("good".data) (Except.ok (7/10)) (Except.error ())).textblob_score = 0 ∧
     (analyze ("good".data) (Except.ok (7/10)) (Except.error ())).textblob_label
        = Label.Neutral) ∧
    analyze ("good".data) (Except.error ()) (Except.ok (1/2)) = zeroAnalyze :=
  scorer_error_soft_degrade ("good".data) (7/10) (Except.ok (1/2)) (by decide)

/-- The two disagreement explanation strings are distinct. -/
lemma mixed_ne_subtle : MIXED_REASON ≠ SUBTLE_REASON := by decide

/-- A non-`none` result of `find_disagreements` carries the
`_explain_disagreement` text. -/
lemma findDisagreements_reason (v t : ℚ) (d : Disagreement)
    (hd : findDisagreements v t = some d) :
    d.possible_reason = explainDisagreement v t := by
  unfold findDisagreements at hd
  by_cases h : scoreToLabel v = scoreToLabel t
  · rw [if_pos h] at hd
    cases hd
  · rw [if_neg h] at hd
    injection hd with h2
    rw [← h2]

/-- C5: `find_disagreements` is non-`none` iff the two `_score_to_label`
labels differ; when non-`none`, the attributed reason is the mixed/complex
branch exactly when `|scoreA - scoreB| > 0.5` and the subtle-indicators
branch otherwise; `disagreement(0.5, 0.5)` is `None` and
`disagreement(0.8, -0.2)` is the mixed/complex branch. -/
theorem disagreement_iff_labels_differ :
    (∀ v t : ℚ,
      ((findDisagreements v t).isSome ↔ scoreToLabel v ≠ scoreToLabel t) ∧
      (∀ d, findDisagreements v t = some d →
        ((d.possible_reason = MIXED_REASON ↔ |v - t| > 0.5) ∧
         (d.possible_reason = SUBTLE_REASON ↔ ¬ |v - t| > 0.5)))) ∧
    findDisagreements 0.5 0.5 = none ∧
    findDisagreements 0.8 (-(0.2)) = some
      { disagreement := true, vader_says := Label.Positive,
        textblob_says := Label.Negative, possible_reason := MIXED_REASON,
        recommendation := "Manual review recommended for this message" } := by
  refine ⟨?_, ?_, ?_⟩
  · intro v t
    constructor
    · unfold findDisagreements
      by_cases h : scoreToLabel v = scoreToLabel t
      · rw [if_pos h]; simp [h]
      · rw [if_neg h]; simp [h]
    · intro d hd
      rw [findDisagreements_reason v t d hd]
      unfold explainDisagreement
      by_cases h2 : |v - t| > 0.5
      · rw [if_pos h2]
        exact ⟨⟨fun _ => h2, fun _ => rfl⟩,
          ⟨fun hq => absurd hq mixed_ne_subtle, fun hn => absurd h2 hn⟩⟩
      · rw [if_neg h2]
        exact ⟨⟨fun hq => absurd hq.symm mixed_ne_subtle, fun hgt => absurd hgt h2⟩,
          ⟨fun _ => h2, fun _ => rfl⟩⟩
  · norm_num [findDisagreements, scoreToLabel]
  · norm_num [findDisagreements, scoreToLabel, explainDisagreement]
    exact fun h => Label.noConfusion h

/-- Witness for `disagreement_iff_labels_differ` at `(0.8, -0.2)`. -/
theorem disagreement_iff_labels_differ_witness :
    ((findDisagreements 0.8 (-(0.2))).isSome ↔
       scoreToLabel 0.8 ≠ scoreToLabel (-(0.2))) ∧
    (({ disagreement := true, vader_says := Label.Positive,
        textblob_says := Label.Negative, possible_reason := MIXED_REASON,
        recommendation := "Manual review recommended for this message" }
          : Disagreement).possible_reason = MIXED_REASON ↔
       |(0.8 : ℚ) - (-(0.2))| > 0.5) := by
  have h := disagreement_iff_labels_differ.1 0.8 (-(0.2))
  exact ⟨h.1, (h.2 _ disagreement_iff_labels_differ.2.2).1⟩

/-- C9 counterexample: at score `0.333` the explanation engine's
`_calculate_confidence` returns `round(min(0.333*1.2, 1.0), 2) = 0.4`,
which differs from the claimed raw value `min(0.333*1.2, 1.0) = 0.3996`:
the claim omits the rounding to two decimal places. -/
theorem per_model_confidence_not_raw :
    calculateConfidence 0.333 = 0.4 ∧
    min (|(0.333 : ℚ)| * 1.2) 1 = 0.3996 ∧
    calculateConfidence 0.333 ≠ min (|(0.333 : ℚ)| * 1.2) 1 := by
  have habs : |(0.333:ℚ)| = 333/1000 := by
    rw [abs_of_pos (show (0:ℚ) < 0.333 by norm_num)]
    norm_num
  have hmin : min ((333:ℚ)/1000 * 1.2) 1 = 999/2500 := by
    rw [min_eq_left] <;> norm_num
  have hf : ⌊(999/25 : ℚ)⌋ = 39 := by norm_num [Int.floor_eq_iff]
  have hval : calculateConfidence 0.333 = 2/5 := by
    unfold calculateConfidence roundTo2 roundHE
    rw [habs, hmin, show ((999:ℚ)/2500 * 100) = 999/25 by norm_num, hf]
    norm_num
  refine ⟨by rw [hval]; norm_num, by rw [habs, hmin]; norm_num, ?_⟩
  rw [hval, habs, hmin]
  norm_num

/-- Rounding half-to-even moves a rational by at most `1/2`. -/
lemma roundHE_sub_le (x : ℚ) : |(roundHE x : ℚ) - x| ≤ 1/2 := by
  have h1 : (⌊x⌋ : ℚ) ≤ x := Int.floor_le x
  have h2 : x < ⌊x⌋ + 1 := Int.lt_floor_add_one x
  unfold roundHE
  split_ifs with hA hB hC
  · rw [abs_sub_comm, abs_of_nonneg (by linarith)]
    linarith
  · push_cast
    rw [abs_of_nonneg (by linarith)]
    linarith
  · rw [abs_sub_comm, abs_of_nonneg (by linarith)]
    linarith [not_lt.mp hA, not_lt.mp hB]
  · push_cast
    rw [abs_of_nonneg (by linarith)]
    linarith [not_lt.mp hA, not_lt.mp hB]

/-- `roundHE` never rounds below an integer lower bound. -/
lemma roundHE_ge (n : ℤ) (x : ℚ) (h : (n:ℚ) ≤ x) : n ≤ roundHE x := by
  have hfl : n ≤ ⌊x⌋ := Int.le_floor.mpr h
  unfold roundHE
  split_ifs <;> omega

/-- `roundHE` never rounds above an integer upper bound. -/
lemma roundHE_le (n : ℤ) (x : ℚ) (h : x ≤ (n:ℚ)) : roundHE x ≤ n := by
  have hfl : ⌊x⌋ ≤ n := by
    calc ⌊x⌋ ≤ ⌊(n:ℚ)⌋ := Int.floor_mono h
    _ = n := Int.floor_intCast n
  have hkey : 1/2 ≤ x - ⌊x⌋ → ⌊x⌋ + 1 ≤ n := by
    intro hge
    have hlt : (⌊x⌋:ℚ) < n := by linarith
    have hlt2 : ⌊x⌋ < n := by exact_mod_cast hlt
    omega
  unfold roundHE
  split_ifs with hA hB hC
  · exact hfl
  · exact hkey hB.le
  · exact hfl
  · exact hkey (not_lt.mp hA)

/-- Rounding to two decimal places moves a rational by at most `1/200`. -/
lemma roundTo2_close (y : ℚ) : |roundTo2 y - y| ≤ 1/200 := by
  have h := roundHE_sub_le (y * 100)
  unfold roundTo2
  rw [show (roundHE (y * 100) : ℚ)/100 - y = ((roundHE (y*100) : ℚ) - y * 100)/100
        by ring,
      abs_div, abs_of_pos (show (0:ℚ) < 100 by norm_num)]
  linarith

/-- `roundTo2` preserves nonnegativity. -/
lemma roundTo2_nonneg (y : ℚ) (h : 0 ≤ y) : 0 ≤ roundTo2 y := by
  have h0 : (0:ℤ) ≤ roundHE (y * 100) := roundHE_ge 0 _ (by push_cast; linarith)
  unfold roundTo2
  apply div_nonneg _ (by norm_num)
  exact_mod_cast h0

/-- `roundTo2` preserves the upper bound `1`. -/
lemma roundTo2_le_one (y : ℚ) (h : y ≤ 1) : roundTo2 y ≤ 1 := by
  have hle : roundHE (y * 100) ≤ 100 := roundHE_le 100 _ (by push_cast; linarith)
  unfold roundTo2
  rw [div_le_one (by norm_num)]
  exact_mod_cast hle

/-- C9 (amended): for every score in `[-1, 1]`, the per-model confidence
equals `min(|score| * 1.2, 1.0)` **rounded half-to-even to two decimal
places** (Python `round(..., 2)`); it therefore lies within `1/200` of the
raw value `min(|score| * 1.2, 1.0)` and stays inside `[0, 1]`. -/
theorem per_model_confidence_rounded (s : ℚ) (h1 : -1 ≤ s) (h2 : s ≤ 1) :
    calculateConfidence s = roundTo2 (min (|s| * 1.2) 1) ∧
    |calculateConfidence s - min (|s| * 1.2) 1| ≤ 1/200 ∧
    0 ≤ calculateConfidence s ∧ calculateConfidence s ≤ 1 := by
  refine ⟨rfl, roundTo2_close _, roundTo2_nonneg _ ?_, roundTo2_le_one _ (min_le_right _ _)⟩
  exact le_min (mul_nonneg (abs_nonneg s) (by norm_num)) zero_le_one

/-- Witness for `per_model_confidence_rounded` at score `1/2`. -/
theorem per_model_confidence_rounded_witness :
    calculateConfidence (1/2) = roundTo2 (min (|(1/2 : ℚ)| * 1.2) 1) ∧
    |calculateConfidence (1/2) - min (|(1/2 : ℚ)| * 1.2) 1| ≤ 1/200 ∧
    0 ≤ calculateConfidence (1/2 : ℚ) ∧ calculateConfidence (1/2 : ℚ) ≤ 1 :=
  per_model_confidence_rounded (1/2) (by norm_num) (by norm_num)

/-- C7: a non-blank line that fails `START_RE` is appended (trimmed, after
a `"\n"` separator) to the most recent message's body when one exists, and
recorded in `failed_lines` otherwise; the two-line chat
`"8/15/2024, 10:30 PM - Alice: Hello\nworld"` parses to exactly one
message with body `"Hello\nworld"` and no failed lines. -/
theorem continuation_line_merge (nt : List Char → List Char → List Char)
    (line : List Char) (msgs : List PMsg) (failed : List (List Char))
    (hblank : stripPy line ≠ []) (hmatch : matchStart line = none) :
    (msgs ≠ [] → parseStep nt (msgs, failed) line
        = (appendLast msgs ('\n' :: stripPy line), failed)) ∧
    (msgs = [] → parseStep nt (msgs, failed) line = (msgs, failed ++ [line])) ∧
    ((parse nt ("8/15/2024, 10:30 PM - Alice: Hello\nworld".data)).1.map
        (fun m => m.message) = [("Hello\nworld".data)] ∧
     (parse nt ("8/15/2024, 10:30 PM - Alice: Hello\nworld".data)).2 = []) := by
  refine ⟨?_, ?_, rfl, rfl⟩
  · intro hne
    unfold parseStep
    rw [if_neg hblank, hmatch, if_neg hne]
  · intro he
    subst he
    unfold parseStep
    rw [if_neg hblank, hmatch]
    rfl

/-- Witness for `continuation_line_merge`: the non-matching line `"world"`
is merged into the pending message `"Hello"`. -/
theorem continuation_line_merge_witness :
    stripPy ("world".data) ≠ [] ∧
    matchStart ("world".data) = none ∧
    parseStep (fun d t => d ++ (", ".data) ++ t)
        ([⟨("ts".data), ("ts".data), ("Alice".data), ("Hello".data)⟩], [])
        ("world".data)
      = ([⟨("ts".data), ("ts".data), ("Alice".data), ("Hello\nworld".data)⟩], []) := by
  have h := continuation_line_merge (fun d t => d ++ (", ".data) ++ t)
      ("world".data) [⟨("ts".data), ("ts".data), ("Alice".data), ("Hello".data)⟩] []
      (by decide) (by decide)
  refine ⟨by decide, by decide, ?_⟩
  rw [h.1 (by simp)]
  rfl

/-- C8: on a matched message-start line, the sender is reclassified to
`"System"` whenever the lowercased (normalized) sender is a known alias or
the lowercased body contains any system-action keyword; in particular any
matched line whose body contains `"created group"` yields sender
`"System"` regardless of the sender field matched. -/
theorem system_reclassification (nt : List Char → List Char → List Char)
    (g : Groups) :
    ((SYSTEM_ALIASES.contains (toLowerL (stripPy ((stripPy g.sender).filter pyPrintable)))
        || SYSTEM_KEYWORDS.any (fun kw => containsSub kw (toLowerL (stripPy g.message))))
        = true →
      (processMatched nt g).sender = ("System".data)) ∧
    (containsSub ("created group".data) (toLowerL (stripPy g.message)) = true →
      (processMatched nt g).sender = ("System".data)) := by
  constructor
  · intro h
    simp only [processMatched]
    rw [if_pos h]
  · intro h
    have hany : SYSTEM_KEYWORDS.any
        (fun kw => containsSub kw (toLowerL (stripPy g.message))) = true :=
      List.any_eq_true.mpr ⟨("created group".data), by decide, h⟩
    simp only [processMatched]
    rw [if_pos (show _ = true by rw [hany, Bool.or_true])]

/-- Witness for `system_reclassification`: the matched groups of
`"8/15/2024, 10:30 PM - Alice: created group Fun"` yield sender
`"System"` although the sender field matched `"Alice"`. -/
theorem system_reclassification_witness :
    (processMatched (fun d t => d ++ (", ".data) ++ t)
        { date := ("8/15/2024".data), time := ("10:30 PM".data),
          sender := ("Alice".data), message := ("created group Fun".data) }).sender
      = ("System".data) :=
  (system_reclassification _ _).2 (by decide)

/-- A message satisfying the skip condition never appears in the analysis
loop's output. -/
lemma skip_not_mem_analyzeChatLoop (msgs : List PMsg) (m : PMsg)
    (hskip : skipMsg m = true) : m ∉ analyzeChatLoop msgs := by
  induction msgs with
  | nil => simp [analyzeChatLoop]
  | cons a rest ih =>
    unfold analyzeChatLoop
    by_cases ha : skipMsg a
    · rw [if_pos ha]
      exact ih
    · rw [if_neg ha]
      intro hmem
      rcases List.mem_cons.mp hmem with heq | hmem2
      · exact ha (heq ▸ hskip)
      · exact ih hmem2

/-- The analysis loop keeps exactly the non-skipped messages, in order. -/
lemma analyzeChatLoop_eq_filter (msgs : List PMsg) :
    analyzeChatLoop msgs = msgs.filter (fun m => !skipMsg m) := by
  induction msgs with
  | nil => rfl
  | cons a rest ih =>
    unfold analyzeChatLoop
    by_cases ha : skipMsg a
    · rw [if_pos ha, List.filter_cons]
      simp [ha, ih]
    · rw [if_neg ha, List.filter_cons]
      simp [ha, ih]

/-- C10: in `analyze_chat`, every parsed message whose body is exactly
`"<Media omitted>"` or empty/whitespace-only is skipped entirely (it
appears nowhere in the output sequence), `total_messages` counts only the
remaining messages, and on a concrete chat with one media-omitted message
`total_messages` is strictly smaller than the parser's message count. -/
theorem media_omitted_or_blank_skipped :
    (∀ (msgs : List PMsg) (m : PMsg),
        (m.message = mediaOmitted ∨ stripPy m.message = []) →
        m ∉ analyzeChatLoop msgs) ∧
    (∀ msgs : List PMsg,
        totalMessages msgs = (msgs.filter (fun m => !skipMsg m)).length) ∧
    (∀ nt : List Char → List Char → List Char,
        totalMessages (parse nt
          ("8/15/2024, 10:30 PM - Alice: <Media omitted>\n8/15/2024, 10:31 PM - Bob: hi".data)).1
          = 1 ∧
        (parse nt
          ("8/15/2024, 10:30 PM - Alice: <Media omitted>\n8/15/2024, 10:31 PM - Bob: hi".data)).1.length
          = 2 ∧
        totalMessages (parse nt
          ("8/15/2024, 10:30 PM - Alice: <Media omitted>\n8/15/2024, 10:31 PM - Bob: hi".data)).1
          < (parse nt
          ("8/15/2024, 10:30 PM - Alice: <Media omitted>\n8/15/2024, 10:31 PM - Bob: hi".data)).1.length) := by
  refine ⟨?_, ?_, fun nt => ⟨rfl, rfl, Nat.one_lt_two⟩⟩
  · intro msgs m hm
    apply skip_not_mem_analyzeChatLoop
    unfold skipMsg
    rcases hm with h | h <;> simp [h]
  · intro msgs
    unfold totalMessages
    rw [analyzeChatLoop_eq_filter]

/-- Witness for `media_omitted_or_blank_skipped`: a media-omitted message
is absent from the loop output, and the concrete two-message chat yields
`total_messages = 1`. -/
theorem media_omitted_or_blank_skipped_witness :
    ((⟨[], [], [], mediaOmitted⟩ : PMsg) ∉
        analyzeChatLoop [⟨[], [], [], mediaOmitted⟩]) ∧
    totalMessages (parse (fun d t => d ++ (", ".data) ++ t)
        ("8/15/2024, 10:30 PM - Alice: <Media omitted>\n8/15/2024, 10:31 PM - Bob: hi".data)).1
      = 1 :=
  ⟨media_omitted_or_blank_skipped.1 _ _ (Or.inl rfl),
   (media_omitted_or_blank_skipped.2.2 (fun d t => d ++ (", ".data) ++ t)).1⟩

end WSA
